import Mathlib

set_option maxHeartbeats 1000000

/-! Shallow embedding of the beacon watchtower process
(`rocketpool-watchtower/watchtower/watchtower.go`): the trust monitor
(`checkTrusted`), the pool supervisor (`checkMinipools`,
`startUpdateMinipools`, `stopUpdateMinipools`), the transition handler
(`onBeaconClientMessage`), the inbound-message worker's type assertion, and
the `txLock` mutual-exclusion protocol. External collaborators (contract
reads, transaction execution, account management, discovery queries) are
passed in as explicit environments; each operation returns both the
resulting process state and a trace of its externally visible effects. -/

/-- On-chain addresses (`common.Address`), abstracted as naturals. -/
abbrev Address := Nat

/-- Modelled from the spec: the minipool lifecycle-stage constant
`minipool.STAKING` (package `shared/services/rocketpool/minipool`, not under
`src/`) is one value of a small-integer (`uint8`) lifecycle enum read from the
chain via `getStatus`; only its distinctness from `LOGGED_OUT` matters here. -/
def STAKING : Nat := 2

/-- Modelled from the spec: the minipool lifecycle-stage constant
`minipool.LOGGED_OUT` (package `shared/services/rocketpool/minipool`, not
under `src/`), a lifecycle-enum value distinct from `STAKING`. -/
def LOGGED_OUT : Nat := 3

/-- Modelled from the spec: the inbound message payload
`beaconchain.ServerMessage` (package `shared/services/beacon-chain`, not under
`src/`) carries a message tag, a validator pubkey, a nested status code
(`Status.Code`), and a balance in the smallest unit (gwei), a non-negative
integer. -/
structure ServerMessage where
  message : String
  pubkey : String
  statusCode : String
  balance : Nat
  deriving DecidableEq

/-- A contract write transaction submitted through
`eth.ExecuteContractTransaction` against the `rocketNodeWatchtower` contract:
the method name, the minipool address argument, and the wei balance argument
(present only for `withdrawMinipool`). -/
structure Tx where
  method : String
  minipoolAddress : Address
  balanceWei : Option Nat
  deriving DecidableEq

/-- External collaborators used by `onBeaconClientMessage`: the fresh on-chain
status read of a minipool (`getMinipoolStatus`), node transactor acquisition
(`AM.GetNodeAccountTransactor`), and the outcome of executing a submitted
transaction. -/
structure HandlerEnv where
  getMinipoolStatus : Address → Except String Nat
  getNodeAccountTransactor : Except String Unit
  executeContractTransaction : Tx → Except String Unit

/-- Externally visible effects of handling one inbound beacon message:
whether the chain-sync wait ran, which minipool addresses had their on-chain
status read, the transactions submitted (in order), and how many error lines
were logged. -/
structure HandlerTrace where
  waitedSync : Bool
  statusReads : List Address
  txs : List Tx
  errorsLogged : Nat
  deriving DecidableEq

/-- The trace of a message that is discarded before any external action. -/
def emptyTrace : HandlerTrace := ⟨false, [], [], 0⟩

/-- Go map lookup `p.activeMinipools[message.Pubkey]` over the
pubkey-to-address association list. -/
def lookupPubkey : List (String × Address) → String → Option Address
  | [], _ => none
  | (k, v) :: rest, pk => if k = pk then some v else lookupPubkey rest pk

/-- Modelled from the spec: `eth.GweiToWei` (package `shared/utils/eth`, not
under `src/`) converts a gwei amount to wei, i.e. multiplies by 10^9; the
in-source `float64` cast of the balance is value-preserving in this model,
per the spec's exact-conversion contract. -/
def GweiToWei (gwei : Nat) : Nat := gwei * 1000000000

/-- Modelled from the spec: `eth.WeiToEth` (package `shared/utils/eth`, not
under `src/`) converts a wei amount to the display denomination (ETH),
i.e. divides by 10^18. -/
def WeiToEth (wei : Nat) : Rat := (wei : Rat) / 1000000000000000000

/-- The transition handler `onBeaconClientMessage`, line by line: acquire
`txLock` (modelled separately as the lock protocol below), parse the payload
(the parse outcome is the `parsed` argument), keep only `validator_status`
messages with status code `exited` or `withdrawable`, resolve the pubkey in
`activeMinipools`, wait for chain sync, read the minipool's on-chain status
fresh, then: submit `logoutMinipool` when the stage is `STAKING`; submit
`withdrawMinipool` with the gwei balance converted to wei when the stage is
`LOGGED_OUT` and the code is `withdrawable`; otherwise do nothing. -/
def onBeaconClientMessage (env : HandlerEnv)
    (activeMinipools : List (String × Address))
    (parsed : Except String ServerMessage) : HandlerTrace :=
  match parsed with
  | Except.error _ => ⟨false, [], [], 1⟩
  | Except.ok message =>
    if message.message ≠ "validator_status" then emptyTrace
    else if ¬(message.statusCode = "exited" ∨ message.statusCode = "withdrawable") then
      emptyTrace
    else
      match lookupPubkey activeMinipools message.pubkey with
      | none => emptyTrace
      | some minipoolAddress =>
        match env.getMinipoolStatus minipoolAddress with
        | Except.error _ => ⟨true, [minipoolAddress], [], 1⟩
        | Except.ok status =>
          if status = STAKING then
            match env.getNodeAccountTransactor with
            | Except.error _ => ⟨true, [minipoolAddress], [], 1⟩
            | Except.ok _ =>
              let t : Tx := ⟨"logoutMinipool", minipoolAddress, none⟩
              match env.executeContractTransaction t with
              | Except.error _ => ⟨true, [minipoolAddress], [t], 1⟩
              | Except.ok _ => ⟨true, [minipoolAddress], [t], 0⟩
          else if status = LOGGED_OUT ∧ message.statusCode = "withdrawable" then
            match env.getNodeAccountTransactor with
            | Except.error _ => ⟨true, [minipoolAddress], [], 1⟩
            | Except.ok _ =>
              let t : Tx :=
                ⟨"withdrawMinipool", minipoolAddress, some (GweiToWei message.balance)⟩
              match env.executeContractTransaction t with
              | Except.error _ => ⟨true, [minipoolAddress], [t], 1⟩
              | Except.ok _ => ⟨true, [minipoolAddress], [t], 0⟩
          else ⟨true, [minipoolAddress], [], 0⟩

/-- The mutable fields of `WatchtowerProcess` relevant to supervision:
the `updatingMinipools` flag, the `activeMinipools` map, and a generation
counter counting how many times `make(chan struct)` has been executed for
`stopCheckMinipools` (1 at process initialisation). -/
structure WState where
  updatingMinipools : Bool
  activeMinipools : List (String × Address)
  stopChanGen : Nat
  deriving DecidableEq

/-- Externally visible effects of a supervision operation: discovery cycles
run, Event Bus subscribes/unsubscribes, sends on `stopCheckMinipools`,
status-check requests dispatched (by pubkey), re-arm timers armed, and error
lines logged. -/
structure SupEffects where
  discoveryCycles : Nat
  subscribes : Nat
  unsubscribes : Nat
  stopSends : Nat
  statusRequests : List String
  timersArmed : Nat
  errorsLogged : Nat
  deriving DecidableEq

/-- The effects of an operation that does nothing externally. -/
def noEffects : SupEffects := ⟨0, 0, 0, 0, [], 0, 0⟩

/-- External collaborator of a discovery cycle: the result of
`minipool.GetActiveMinipoolsByValidatorPubkey`. -/
structure SupEnv where
  getActiveMinipools : Except String (List (String × Address))

/-- The process state as initialised by `StartWatchtowerProcess`:
not updating, empty map, and the stop channel freshly made (generation 1). -/
def initProcess : WState := ⟨false, [], 1⟩

/-- One discovery cycle (`checkMinipools`): wait for sync, query the active
minipool set; on error log and abort the cycle (no map change, no dispatch,
no timer); on success replace `activeMinipools` entirely, dispatch one
status-check request per entry of the new map, and arm the single-shot
re-check timer (`scheduleCheckMinipools`). -/
def checkMinipools (env : SupEnv) (s : WState) : WState × SupEffects :=
  match env.getActiveMinipools with
  | Except.error _ => (s, ⟨1, 0, 0, 0, [], 0, 1⟩)
  | Except.ok discovered =>
      ({ s with activeMinipools := discovered },
       ⟨1, 0, 0, 0, discovered.map Prod.fst, 1, 0⟩)

/-- `startUpdateMinipools`: no-op if already updating; otherwise set the flag,
run one discovery cycle, and subscribe the beacon message channel to the
`beacon.client.message` topic. The stop channel is not touched. -/
def startUpdateMinipools (env : SupEnv) (s : WState) : WState × SupEffects :=
  if s.updatingMinipools then (s, noEffects)
  else
    let r := checkMinipools env { s with updatingMinipools := true }
    (r.1, { r.2 with subscribes := r.2.subscribes + 1 })

/-- `stopUpdateMinipools`: no-op if not updating; otherwise clear the flag,
send once on `stopCheckMinipools` to cancel the pending re-arm timer, and
unsubscribe from the topic. The stop channel is not remade. -/
def stopUpdateMinipools (s : WState) : WState × SupEffects :=
  if s.updatingMinipools then
    ({ s with updatingMinipools := false }, ⟨0, 0, 1, 1, [], 0, 0⟩)
  else (s, noEffects)

/-- A node account (`accounts.Account`), reduced to its address. -/
structure Account where
  address : Address
  deriving DecidableEq

/-- The zero value of `accounts.Account`. -/
def zeroAccount : Account := ⟨0⟩

/-- Modelled from the spec: `AM.GetNodeAccount` (package `shared/services`,
not under `src/`) follows the Go convention of returning the zero-value
account alongside a non-nil error; `checkTrusted` discards the error with a
blank identifier, so on failure the zero account is what remains. -/
def accountOrZero : Except String Account → Account
  | Except.ok a => a
  | Except.error _ => zeroAccount

/-- External collaborators of the trust check: node-account retrieval and the
`getTrusted` contract read keyed by an address. -/
structure TrustEnv where
  getNodeAccount : Except String Account
  getTrusted : Address → Except String Bool

/-- Externally visible effects of one trust check: the addresses passed to
the `getTrusted` contract call (in order), whether supervision start or
stand-down was invoked, and how many error lines were logged. -/
structure TrustTrace where
  getTrustedCalls : List Address
  startedSupervision : Bool
  stoppedSupervision : Bool
  errorsLogged : Nat
  deriving DecidableEq

/-- The trust monitor body `checkTrusted`: wait for sync, fetch the node
account discarding the error, read the trusted flag keyed by the (possibly
zero) account address; on read error log and return; otherwise start
supervision when trusted, stand down when not. -/
def checkTrusted (env : TrustEnv) : TrustTrace :=
  let nodeAccount := accountOrZero env.getNodeAccount
  match env.getTrusted nodeAccount.address with
  | Except.error _ => ⟨[nodeAccount.address], false, false, 1⟩
  | Except.ok trusted => ⟨[nodeAccount.address], trusted, !trusted, 0⟩

/-- A value delivered on the untyped `beaconMessageChannel`
(`chan interface`): either the expected anonymous-struct tuple of a beacon
client pointer and raw message bytes, or a payload of any other dynamic
type. -/
inductive BusPayload
  | beaconEvent (clientId : Nat) (messageBytes : List Nat)
  | otherPayload (tag : String)
  deriving DecidableEq

/-- The dynamic type assertion the worker performs on each delivered value:
it succeeds exactly on the expected struct type. -/
def typeAssertBeaconEvent : BusPayload → Option (Nat × List Nat)
  | BusPayload.beaconEvent c m => some (c, m)
  | BusPayload.otherPayload _ => none

/-- Outcome of the inbound-message worker on one delivered value: either the
message bytes are handed to `onBeaconClientMessage`, or the unchecked type
assertion fails and the goroutine panics. -/
inductive WorkerOutcome
  | handled (messageBytes : List Nat)
  | panicked
  deriving DecidableEq

/-- One iteration of the worker loop in `start`: an unchecked type assertion
on the delivered value, then the handler call on the message bytes. There is
no checked-cast branch: a wrong dynamic type is a runtime panic, not a logged
discard. -/
def workerStep (payload : BusPayload) : WorkerOutcome :=
  match typeAssertBeaconEvent payload with
  | some r => WorkerOutcome.handled r.2
  | none => WorkerOutcome.panicked

/-- State of the `txLock` protocol for `n` potential concurrent handler
invocations: each invocation's program counter, and the current lock owner.
Each handler invocation is the straight-line program of length `L`: step 0 is
`txLock.Lock()`, steps `1..L-2` are the body of `onBeaconClientMessage` (the
submission internals included), step `L-1` is the deferred `Unlock()`. -/
structure LockState (n : Nat) where
  pc : Fin n → Nat
  lockOwner : Option (Fin n)

/-- Initial lock-protocol state: no handler has started, lock free. -/
def lockInit (n : Nat) : LockState n := ⟨fun _ => 0, none⟩

/-- A handler step is enabled when the handler has not finished and the mutex
discipline allows it: the initial `Lock()` needs the lock free, every later
step (body and `Unlock()`) needs the caller to hold the lock. -/
def stepEnabled {n : Nat} (L : Nat) (s : LockState n) (i : Fin n) : Bool :=
  decide (s.pc i < L) &&
    (if s.pc i = 0 then decide (s.lockOwner = none)
     else decide (s.lockOwner = some i))

/-- Execute one step of handler `i` when enabled (acquiring on step 0,
releasing on the last step), otherwise leave the state unchanged. -/
def doStep {n : Nat} (L : Nat) (s : LockState n) (i : Fin n) : LockState n :=
  if stepEnabled L s i then
    { pc := fun j => if j = i then s.pc i + 1 else s.pc j,
      lockOwner :=
        if s.pc i = 0 then some i
        else if s.pc i + 1 = L then none
        else s.lockOwner }
  else s

/-- Run a schedule (an arbitrary interleaving choice) from the initial
state; disabled steps block and are skipped. -/
def runSchedule {n : Nat} (L : Nat) (sched : List (Fin n)) : LockState n :=
  sched.foldl (doStep L) (lockInit n)

/-- Handler `i` is mid-flight inside the critical section: it has executed
`Lock()` and not yet its `Unlock()`. -/
def inCritical {n : Nat} (L : Nat) (s : LockState n) (i : Fin n) : Prop :=
  0 < s.pc i ∧ s.pc i < L

instance {n : Nat} (L : Nat) (s : LockState n) (i : Fin n) :
    Decidable (inCritical L s i) :=
  inferInstanceAs (Decidable (0 < s.pc i ∧ s.pc i < L))

/-- The mutex invariant: any handler inside the critical section owns the
lock. -/
def LockInv {n : Nat} (L : Nat) (s : LockState n) : Prop :=
  ∀ i, 0 < s.pc i → s.pc i < L → s.lockOwner = some i

/-- Concrete handler environments and messages used to instantiate the
theorems below. -/
def envStaking : HandlerEnv :=
  ⟨fun _ => Except.ok STAKING, Except.ok (), fun _ => Except.ok ()⟩

def envLoggedOut : HandlerEnv :=
  ⟨fun _ => Except.ok LOGGED_OUT, Except.ok (), fun _ => Except.ok ()⟩

def msgExited : ServerMessage := ⟨"validator_status", "pk1", "exited", 32000000000⟩

def msgWithdrawable : ServerMessage :=
  ⟨"validator_status", "pk1", "withdrawable", 1000000000⟩

def envOkEmpty : SupEnv := ⟨Except.ok []⟩

def envOkTwo : SupEnv := ⟨Except.ok [("pkA", 10), ("pkB", 11)]⟩

def envDiscErr : SupEnv := ⟨Except.error "connection refused"⟩

def envTrustErr : TrustEnv := ⟨Except.error "no accounts", fun _ => Except.ok true⟩

def envOtherStage : HandlerEnv :=
  ⟨fun _ => Except.ok 0, Except.ok (), fun _ => Except.ok ()⟩

def supervisingState : WState := ⟨true, [], 1⟩

/-! Helper lemmas shared by the claim theorems. -/

theorem checkMinipools_fst_updating (env : SupEnv) (s : WState) :
    (checkMinipools env s).1.updatingMinipools = s.updatingMinipools := by
  unfold checkMinipools
  cases env.getActiveMinipools <;> rfl

theorem checkMinipools_fst_stopChanGen (env : SupEnv) (s : WState) :
    (checkMinipools env s).1.stopChanGen = s.stopChanGen := by
  unfold checkMinipools
  cases env.getActiveMinipools <;> rfl

theorem startUpdateMinipools_noop (env : SupEnv) (s : WState)
    (h : s.updatingMinipools = true) :
    startUpdateMinipools env s = (s, noEffects) := by
  unfold startUpdateMinipools
  simp [h]

theorem stopUpdateMinipools_noop (s : WState)
    (h : s.updatingMinipools = false) :
    stopUpdateMinipools s = (s, noEffects) := by
  unfold stopUpdateMinipools
  simp [h]

theorem startUpdateMinipools_fst_updating (env : SupEnv) (s : WState) :
    (startUpdateMinipools env s).1.updatingMinipools = true := by
  unfold startUpdateMinipools
  by_cases h : s.updatingMinipools
  · simp [h]
  · simp only [h, if_false, Bool.false_eq_true]
    rw [checkMinipools_fst_updating]

theorem stopUpdateMinipools_fst_updating (s : WState) :
    (stopUpdateMinipools s).1.updatingMinipools = false := by
  unfold stopUpdateMinipools
  by_cases h : s.updatingMinipools <;> simp [h]

/-- C7: calling start-supervision twice in a row yields the same state and the
same external effects (one discovery cycle, one subscription) as calling it
once; calling stand-down twice in a row is equivalent to calling it once; the
second call of each pair is a no-op guarded by the `updatingMinipools` flag. -/
theorem startStop_idempotent (env : SupEnv) (s : WState) :
    startUpdateMinipools env (startUpdateMinipools env s).1 =
      ((startUpdateMinipools env s).1, noEffects) ∧
    stopUpdateMinipools (stopUpdateMinipools s).1 =
      ((stopUpdateMinipools s).1, noEffects) ∧
    (s.updatingMinipools = false →
      (startUpdateMinipools env s).2.discoveryCycles = 1 ∧
      (startUpdateMinipools env s).2.subscribes = 1) ∧
    (s.updatingMinipools = true → startUpdateMinipools env s = (s, noEffects)) ∧
    (s.updatingMinipools = false → stopUpdateMinipools s = (s, noEffects)) := by
  refine ⟨startUpdateMinipools_noop env _ (startUpdateMinipools_fst_updating env s),
          stopUpdateMinipools_noop _ (stopUpdateMinipools_fst_updating s), ?_,
          fun h => startUpdateMinipools_noop env s h,
          fun h => stopUpdateMinipools_noop s h⟩
  intro h
  unfold startUpdateMinipools checkMinipools
  cases hd : env.getActiveMinipools <;> simp [h, hd]

theorem startStop_idempotent_witness :
    startUpdateMinipools envOkTwo (startUpdateMinipools envOkTwo initProcess).1 =
      ((startUpdateMinipools envOkTwo initProcess).1, noEffects) ∧
    stopUpdateMinipools (stopUpdateMinipools supervisingState).1 =
      ((stopUpdateMinipools supervisingState).1, noEffects) ∧
    (startUpdateMinipools envOkTwo initProcess).2.discoveryCycles = 1 ∧
    (startUpdateMinipools envOkTwo initProcess).2.subscribes = 1 ∧
    startUpdateMinipools envOkTwo supervisingState = (supervisingState, noEffects) ∧
    stopUpdateMinipools initProcess = (initProcess, noEffects) := by
  have h1 := startStop_idempotent envOkTwo initProcess
  have h2 := startStop_idempotent envOkTwo supervisingState
  exact ⟨h1.1, h2.2.1, (h1.2.2.1 rfl).1, (h1.2.2.1 rfl).2,
         h2.2.2.2.1 rfl, h1.2.2.2.2 rfl⟩

/-- C5: a discovery cycle whose active-instance query errors is logged and
aborted entirely: the state (in particular `activeMinipools`) is unchanged, no
status-check request is dispatched, no re-arm timer is armed; and
start-supervision is a no-op while already supervising, so only a fresh
session resumes discovery. -/
theorem checkMinipools_error_aborts (env : SupEnv) (s : WState) (e : String)
    (herr : env.getActiveMinipools = Except.error e)
    (env2 : SupEnv) (s2 : WState) (h2 : s2.updatingMinipools = true) :
    (checkMinipools env s).1 = s ∧
    (checkMinipools env s).2.statusRequests = [] ∧
    (checkMinipools env s).2.timersArmed = 0 ∧
    (checkMinipools env s).2.errorsLogged = 1 ∧
    startUpdateMinipools env2 s2 = (s2, noEffects) := by
  unfold checkMinipools
  exact ⟨by simp [herr], by simp [herr], by simp [herr], by simp [herr],
         startUpdateMinipools_noop env2 s2 h2⟩

theorem checkMinipools_error_aborts_witness :
    (checkMinipools envDiscErr initProcess).1 = initProcess ∧
    (checkMinipools envDiscErr initProcess).2.statusRequests = [] ∧
    (checkMinipools envDiscErr initProcess).2.timersArmed = 0 ∧
    (checkMinipools envDiscErr initProcess).2.errorsLogged = 1 ∧
    startUpdateMinipools envOkEmpty supervisingState = (supervisingState, noEffects) :=
  checkMinipools_error_aborts envDiscErr initProcess "connection refused" rfl
    envOkEmpty supervisingState rfl

/-- C6: after a successful discovery cycle, `activeMinipools` equals exactly
the freshly discovered pubkey-to-address set: discovery replaces the map
rather than merging into it, so lookups afterwards agree with the new set and
entries absent from it are gone. -/
theorem checkMinipools_replaces (env : SupEnv) (s : WState)
    (d : List (String × Address)) (pk : String)
    (hok : env.getActiveMinipools = Except.ok d) :
    (checkMinipools env s).1.activeMinipools = d ∧
    lookupPubkey (checkMinipools env s).1.activeMinipools pk = lookupPubkey d pk := by
  unfold checkMinipools
  simp [hok]

theorem checkMinipools_replaces_witness :
    (checkMinipools envOkTwo supervisingState).1.activeMinipools =
      [("pkA", 10), ("pkB", 11)] ∧
    lookupPubkey (checkMinipools envOkTwo supervisingState).1.activeMinipools "pkB" =
      lookupPubkey [("pkA", 10), ("pkB", 11)] "pkB" :=
  checkMinipools_replaces envOkTwo supervisingState [("pkA", 10), ("pkB", 11)] "pkB" rfl

/-- C3 counterexample: the stop channel is NOT recreated each time supervision
starts. After the process initialises (generation 1) and supervision starts,
stands down, and starts again — two supervision sessions — the stop-channel
generation is still 1, even though the second session has genuinely begun. -/
theorem stopChannel_not_recreated :
    ((startUpdateMinipools envOkEmpty
        (stopUpdateMinipools
          (startUpdateMinipools envOkEmpty initProcess).1).1).1.stopChanGen = 1) ∧
    ((startUpdateMinipools envOkEmpty
        (stopUpdateMinipools
          (startUpdateMinipools envOkEmpty initProcess).1).1).1.updatingMinipools
      = true) := by
  constructor <;> rfl

/-- C3 amended: the stop channel is created exactly once, at process
initialisation (generation 1); neither start-supervision nor stand-down
recreates it. Stand-down sends on it exactly once per supervision session —
once when supervising, zero times otherwise — and no other supervision
operation sends on it. -/
theorem stopChannel_once_per_session (env : SupEnv) (s : WState) :
    (startUpdateMinipools env s).1.stopChanGen = s.stopChanGen ∧
    (stopUpdateMinipools s).1.stopChanGen = s.stopChanGen ∧
    initProcess.stopChanGen = 1 ∧
    (stopUpdateMinipools s).2.stopSends = (if s.updatingMinipools then 1 else 0) ∧
    (startUpdateMinipools env s).2.stopSends = 0 ∧
    (checkMinipools env s).2.stopSends = 0 := by
  refine ⟨?_, ?_, rfl, ?_, ?_, ?_⟩
  · unfold startUpdateMinipools
    by_cases h : s.updatingMinipools
    · simp [h]
    · simp only [h, if_false, Bool.false_eq_true]
      rw [checkMinipools_fst_stopChanGen]
  · unfold stopUpdateMinipools
    by_cases h : s.updatingMinipools <;> simp [h]
  · unfold stopUpdateMinipools
    by_cases h : s.updatingMinipools <;> simp [h, noEffects]
  · unfold startUpdateMinipools checkMinipools
    by_cases h : s.updatingMinipools <;>
      cases hd : env.getActiveMinipools <;> simp [h, hd, noEffects]
  · unfold checkMinipools
    cases hd : env.getActiveMinipools <;> simp [hd]

/-- C1: for an inbound `validator_status` message whose status code is
`exited` or `withdrawable` and whose pubkey resolves to a managed minipool
address, when the freshly read on-chain stage is `STAKING` the complete list
of submitted transactions is exactly one `logoutMinipool` (so never a
withdraw); when the stage is `LOGGED_OUT` and the code is `exited`, or the
stage is neither `STAKING` nor `LOGGED_OUT`, no transaction is submitted. -/
theorem onBeaconClientMessage_decision_table
    (env : HandlerEnv) (am : List (String × Address)) (msg : ServerMessage)
    (addr : Address) (st : Nat)
    (hmsg : msg.message = "validator_status")
    (hcode : msg.statusCode = "exited" ∨ msg.statusCode = "withdrawable")
    (haddr : lookupPubkey am msg.pubkey = some addr)
    (hst : env.getMinipoolStatus addr = Except.ok st)
    (htxor : env.getNodeAccountTransactor = Except.ok ()) :
    (st = STAKING →
      (onBeaconClientMessage env am (Except.ok msg)).txs =
        [⟨"logoutMinipool", addr, none⟩]) ∧
    (st = LOGGED_OUT → msg.statusCode = "exited" →
      (onBeaconClientMessage env am (Except.ok msg)).txs = []) ∧
    (st ≠ STAKING → st ≠ LOGGED_OUT →
      (onBeaconClientMessage env am (Except.ok msg)).txs = []) := by
  unfold onBeaconClientMessage
  refine ⟨?_, ?_, ?_⟩
  · intro h
    subst h
    rcases hcode with hc | hc <;>
      cases hE : env.executeContractTransaction ⟨"logoutMinipool", addr, none⟩ <;>
        simp [hmsg, hc, haddr, hst, htxor, hE]
  · intro h hc
    subst h
    simp [hmsg, hc, haddr, hst, STAKING, LOGGED_OUT]
  · intro h1 h2
    rcases hcode with hc | hc <;> simp [hmsg, hc, haddr, hst, h1, h2]

theorem onBeaconClientMessage_decision_table_witness :
    (onBeaconClientMessage envStaking [("pk1", 5)] (Except.ok msgExited)).txs =
      [⟨"logoutMinipool", 5, none⟩] ∧
    (onBeaconClientMessage envLoggedOut [("pk1", 5)] (Except.ok msgExited)).txs = [] ∧
    (onBeaconClientMessage envOtherStage [("pk1", 5)] (Except.ok msgExited)).txs = [] := by
  have h1 := onBeaconClientMessage_decision_table envStaking [("pk1", 5)] msgExited
    5 STAKING rfl (Or.inl rfl) (by decide) rfl rfl
  have h2 := onBeaconClientMessage_decision_table envLoggedOut [("pk1", 5)] msgExited
    5 LOGGED_OUT rfl (Or.inl rfl) (by decide) rfl rfl
  have h3 := onBeaconClientMessage_decision_table envOtherStage [("pk1", 5)] msgExited
    5 0 rfl (Or.inl rfl) (by decide) rfl rfl
  exact ⟨h1.1 rfl, h2.2.1 rfl rfl, h3.2.2 (by decide) (by decide)⟩

/-- C2: for an inbound `validator_status` message with status code
`withdrawable` whose pubkey resolves to a managed minipool whose on-chain
stage reads `LOGGED_OUT`, the complete list of submitted transactions is
exactly one `withdrawMinipool` whose balance argument is the reported gwei
integer converted exactly to wei (multiplied by 10^9); the example balance
1000000000 gwei is 1.0 in display (ETH) units. -/
theorem onBeaconClientMessage_withdraw_balance
    (env : HandlerEnv) (am : List (String × Address)) (msg : ServerMessage)
    (addr : Address)
    (hmsg : msg.message = "validator_status")
    (hcode : msg.statusCode = "withdrawable")
    (haddr : lookupPubkey am msg.pubkey = some addr)
    (hstage : env.getMinipoolStatus addr = Except.ok LOGGED_OUT)
    (htxor : env.getNodeAccountTransactor = Except.ok ()) :
    (onBeaconClientMessage env am (Except.ok msg)).txs =
      [⟨"withdrawMinipool", addr, some (GweiToWei msg.balance)⟩] ∧
    GweiToWei msg.balance = msg.balance * 1000000000 ∧
    WeiToEth (GweiToWei 1000000000) = 1 := by
  refine ⟨?_, rfl, by norm_num [WeiToEth, GweiToWei]⟩
  unfold onBeaconClientMessage
  cases hE : env.executeContractTransaction
      ⟨"withdrawMinipool", addr, some (GweiToWei msg.balance)⟩ <;>
    simp [hmsg, hcode, haddr, hstage, htxor, hE, STAKING, LOGGED_OUT]

theorem onBeaconClientMessage_withdraw_balance_witness :
    (onBeaconClientMessage envLoggedOut [("pk1", 5)] (Except.ok msgWithdrawable)).txs =
      [⟨"withdrawMinipool", 5, some 1000000000000000000⟩] ∧
    WeiToEth 1000000000000000000 = 1 := by
  have h := onBeaconClientMessage_withdraw_balance envLoggedOut [("pk1", 5)]
    msgWithdrawable 5 rfl rfl (by decide) rfl rfl
  exact ⟨h.1, h.2.2⟩

/-- C4: an inbound `validator_status` message with an allowed status code
whose pubkey is absent from `activeMinipools` is dropped at the map lookup:
no chain-sync wait, no on-chain status read, no transaction, and no error
logged. -/
theorem onBeaconClientMessage_unknown_pubkey
    (env : HandlerEnv) (am : List (String × Address)) (msg : ServerMessage)
    (hmsg : msg.message = "validator_status")
    (hcode : msg.statusCode = "exited" ∨ msg.statusCode = "withdrawable")
    (hnone : lookupPubkey am msg.pubkey = none) :
    (onBeaconClientMessage env am (Except.ok msg)).waitedSync = false ∧
    (onBeaconClientMessage env am (Except.ok msg)).statusReads = [] ∧
    (onBeaconClientMessage env am (Except.ok msg)).txs = [] ∧
    (onBeaconClientMessage env am (Except.ok msg)).errorsLogged = 0 := by
  unfold onBeaconClientMessage
  rcases hcode with hc | hc <;> simp [hmsg, hc, hnone, emptyTrace]

theorem onBeaconClientMessage_unknown_pubkey_witness :
    (onBeaconClientMessage envStaking [("pkOther", 9)] (Except.ok msgExited)).waitedSync
      = false ∧
    (onBeaconClientMessage envStaking [("pkOther", 9)] (Except.ok msgExited)).statusReads
      = [] ∧
    (onBeaconClientMessage envStaking [("pkOther", 9)] (Except.ok msgExited)).txs = [] ∧
    (onBeaconClientMessage envStaking [("pkOther", 9)] (Except.ok msgExited)).errorsLogged
      = 0 :=
  onBeaconClientMessage_unknown_pubkey envStaking [("pkOther", 9)] msgExited
    rfl (Or.inl rfl) (by decide)

/-- C9: the inbound-message worker applies an unchecked dynamic cast to every
delivered value: it panics exactly on payloads that are not the expected
client-and-bytes struct, and on a well-typed payload it hands the message
bytes to the handler — there is no logged-discard outcome for an ill-typed
payload. -/
theorem workerStep_cast (p : BusPayload) (c : Nat) (m : List Nat) :
    (workerStep p = WorkerOutcome.panicked ↔ typeAssertBeaconEvent p = none) ∧
    workerStep (BusPayload.beaconEvent c m) = WorkerOutcome.handled m := by
  constructor
  · cases p <;> simp [workerStep, typeAssertBeaconEvent]
  · rfl

theorem workerStep_cast_witness :
    workerStep (BusPayload.otherPayload "stray") = WorkerOutcome.panicked :=
  (workerStep_cast (BusPayload.otherPayload "stray") 0 []).1.mpr rfl

/-- C10: `checkTrusted` discards the error from node-account retrieval: when
retrieval fails, the `getTrusted` contract read is still performed, keyed by
the zero-value account address, rather than the check being aborted. -/
theorem checkTrusted_ignores_account_error (env : TrustEnv) (e : String)
    (herr : env.getNodeAccount = Except.error e) :
    (checkTrusted env).getTrustedCalls = [zeroAccount.address] := by
  unfold checkTrusted
  rw [herr]
  simp only [accountOrZero]
  cases ht : env.getTrusted zeroAccount.address <;> simp [ht]

theorem checkTrusted_ignores_account_error_witness :
    (checkTrusted envTrustErr).getTrustedCalls = [zeroAccount.address] :=
  checkTrusted_ignores_account_error envTrustErr "no accounts" rfl

theorem lockInv_init (L n : Nat) : LockInv L (lockInit n) := by
  intro i h1 _
  simp [lockInit] at h1

theorem lockInv_doStep {n : Nat} (L : Nat) (s : LockState n) (i : Fin n)
    (h : LockInv L s) : LockInv L (doStep L s i) := by
  intro j hj1 hj2
  unfold doStep at hj1 hj2 ⊢
  by_cases he : stepEnabled L s i = true
  · rw [if_pos he] at hj1 hj2 ⊢
    have he' := he
    unfold stepEnabled at he'
    rw [Bool.and_eq_true] at he'
    obtain ⟨_, hcond⟩ := he'
    simp only at hj1 hj2 ⊢
    by_cases hji : j = i
    · subst hji
      simp only [if_pos rfl, eq_self_iff_true, if_true] at hj1 hj2 ⊢
      by_cases h0 : s.pc j = 0
      · rw [if_pos h0]
      · rw [if_neg h0]
        rw [if_neg (Nat.ne_of_lt hj2)]
        rw [if_neg h0] at hcond
        exact of_decide_eq_true hcond
    · simp only [if_neg hji] at hj1 hj2
      have hown : s.lockOwner = some j := h j hj1 hj2
      by_cases h0 : s.pc i = 0
      · rw [if_pos h0] at hcond
        have : s.lockOwner = none := of_decide_eq_true hcond
        rw [hown] at this
        exact absurd this (by simp)
      · rw [if_neg h0] at hcond
        have : s.lockOwner = some i := of_decide_eq_true hcond
        rw [hown] at this
        exact absurd (Option.some.inj this) hji
  · rw [if_neg he] at hj1 hj2 ⊢
    exact h j hj1 hj2

theorem lockInv_run {n : Nat} (L : Nat) (sched : List (Fin n)) :
    LockInv L (runSchedule L sched) := by
  have main : ∀ (l : List (Fin n)) (s : LockState n), LockInv L s →
      LockInv L (l.foldl (doStep L) s) := by
    intro l
    induction l with
    | nil => exact fun s hs => hs
    | cons a t ih => exact fun s hs => ih _ (lockInv_doStep L s a hs)
  exact main sched (lockInit n) (lockInv_init L n)

/-- C8: the `txLock` protocol followed by every message-handler invocation
(acquire at entry, deferred release at exit) globally serializes transaction
submissions: in every reachable interleaving state, any two handlers inside
the critical section coincide (at most one write transaction is in flight),
the in-flight handler owns the lock, and every step of any other handler is
disabled — so no two handlers' submission internals interleave. -/
theorem txLock_serializes {n : Nat} (L : Nat) (sched : List (Fin n))
    (i k j : Fin n)
    (hi : inCritical L (runSchedule L sched) i)
    (hk : inCritical L (runSchedule L sched) k)
    (hj : j ≠ i) :
    k = i ∧
    (runSchedule L sched).lockOwner = some i ∧
    stepEnabled L (runSchedule L sched) j = false := by
  have hinv := lockInv_run L sched
  have howner : (runSchedule L sched).lockOwner = some i := hinv i hi.1 hi.2
  have hkowner : (runSchedule L sched).lockOwner = some k := hinv k hk.1 hk.2
  refine ⟨Option.some.inj (hkowner.symm.trans howner), howner, ?_⟩
  unfold stepEnabled
  by_cases h0 : (runSchedule L sched).pc j = 0
  · rw [if_pos h0, howner]
    simp
  · rw [if_neg h0, howner]
    by_cases hL : (runSchedule L sched).pc j < L
    · have hjcrit := hinv j (Nat.pos_of_ne_zero h0) hL
      rw [howner] at hjcrit
      exact absurd (Option.some.inj hjcrit).symm hj
    · simp [hL]

theorem txLock_serializes_witness :
    (0 : Fin 2) = 0 ∧
    (runSchedule 4 [(0 : Fin 2)]).lockOwner = some 0 ∧
    stepEnabled 4 (runSchedule 4 [(0 : Fin 2)]) 1 = false :=
  txLock_serializes 4 [(0 : Fin 2)] 0 0 1 (by decide) (by decide) (by decide)
